import Mathlib

/-!
Verification development for the T-Display-S3 NyanCat clock firmware
(src/src/main.cpp). The global mutable state of the sketch is embedded as an
explicit state record; each C++ function that the claims mention becomes a pure
state-transformer. Calls to external collaborators (the network stack, the
drawing surface, the backlight pin) are recorded in ghost fields or in an
explicit list of draw calls, so that theorems can speak about which
collaborator invocations a step performs.
-/

set_option maxRecDepth 4000

namespace NyanClock

/-- WiFi connection states, from the wifi_state_t enum in main.cpp. -/
inductive wifi_state_t where
  | disconnected
  | connecting
  | connected
  | reconnecting
  | failed
deriving DecidableEq

/-- The WiFi link events the sketch handles (WiFiEvent_t cases used in
main.cpp); every other library event falls under otherEvent. -/
inductive WiFiEvent_t where
  | staConnected
  | staGotIP
  | staDisconnected
  | otherEvent
deriving DecidableEq

/-- 5 seconds between WiFi checks (WIFI_CHECK_INTERVAL in main.cpp). -/
def WIFI_CHECK_INTERVAL : Nat := 5000

/-- 10 second connection timeout (WIFI_CONNECT_TIMEOUT in main.cpp). -/
def WIFI_CONNECT_TIMEOUT : Nat := 10000

/-- Max retries before giving up (MAX_RECONNECT_ATTEMPTS in main.cpp). -/
def MAX_RECONNECT_ATTEMPTS : Nat := 3

/-- NTP resync interval, 10 minutes (ntpSyncInterval in main.cpp). -/
def ntpSyncInterval : Nat := 600000

/-- Failure cooldown, 2 minutes (the literal 120000 in WiFiRecovery). -/
def failureCooldownMs : Nat := 120000

/-- The process-scope mutable variables of main.cpp that the claims are about.
millis() values are embedded as Nat (the spec treats counter wrap as ignored);
reconnectAttempts is a uint8_t so its increment is taken mod 256.
wifiBeginCount counts calls of the collaborator WiFi.begin,
displayedStatusText and indicatorDraws record what the WiFi indicator redraw
block last drew and how many times it ran. -/
structure SysState where
  wifiState : wifi_state_t
  lastWifiCheck : Nat
  wifiConnectStart : Nat
  reconnectAttempts : Nat
  wifiFailedTime : Nat
  wifiColour : Nat
  ipAddress : String
  forceRedraw : Bool
  lastNTPSync : Nat
  lastSyncedTime : Nat
  elapsedSeconds : Nat
  lastMillis : Nat
  lastSecond : String
  lastWeekday : String
  lastFPSString : String
  staticElementsDrawn : Bool
  wifiBeginCount : Nat
  displayedStatusText : String
  indicatorDraws : Nat
deriving DecidableEq

/-- Initial values of the globals in main.cpp (wifiColour starts as
TFT_GREEN = 0x07E0, forceRedraw starts true, lastFPSString starts "0"). -/
def initialState : SysState :=
  { wifiState := .disconnected
    lastWifiCheck := 0
    wifiConnectStart := 0
    reconnectAttempts := 0
    wifiFailedTime := 0
    wifiColour := 0x07E0
    ipAddress := ""
    forceRedraw := true
    lastNTPSync := 0
    lastSyncedTime := 0
    elapsedSeconds := 0
    lastMillis := 0
    lastSecond := ""
    lastWeekday := ""
    lastFPSString := "0"
    staticElementsDrawn := false
    wifiBeginCount := 0
    displayedStatusText := ""
    indicatorDraws := 0 }

/-- startWiFi from main.cpp: issues WiFi.begin, enters CONNECTING, stamps
wifiConnectStart and resets reconnectAttempts. -/
def startWiFi (now : Nat) (s : SysState) : SysState :=
  { s with wifiState := .connecting
           wifiConnectStart := now
           reconnectAttempts := 0
           wifiBeginCount := s.wifiBeginCount + 1 }

/-- WiFiTimeout from main.cpp. The C condition
`wifiState == RECONNECTING && ++reconnectAttempts >= MAX_RECONNECT_ATTEMPTS`
short-circuits: the counter is incremented only when the state is
RECONNECTING; the else branch reissues WiFi.begin and enters RECONNECTING. -/
def WiFiTimeout (now : Nat) (s : SysState) : SysState :=
  if s.wifiState = .reconnecting then
    let attempts := (s.reconnectAttempts + 1) % 256
    if MAX_RECONNECT_ATTEMPTS ≤ attempts then
      { s with reconnectAttempts := attempts
               wifiState := .failed
               wifiFailedTime := now }
    else
      { s with reconnectAttempts := attempts
               wifiState := .reconnecting
               wifiConnectStart := now
               wifiBeginCount := s.wifiBeginCount + 1 }
  else
    { s with wifiState := .reconnecting
             wifiConnectStart := now
             wifiBeginCount := s.wifiBeginCount + 1 }

/-- WiFiRecovery from main.cpp: leaves FAILED for DISCONNECTED once strictly
more than 120000 ms have passed since wifiFailedTime. -/
def WiFiRecovery (currentMillis : Nat) (s : SysState) : SysState :=
  if failureCooldownMs < currentMillis - s.wifiFailedTime then
    { s with wifiState := .disconnected }
  else s

/-- The colour switch in updateWiFiStatus (main.cpp lines 252-266): the
byte-swapped colour constants used by the sketch. CONNECTED and the default
(DISCONNECTED) case map to the same colour 0x001F, CONNECTING and
RECONNECTING map to the same colour 0x07FF. -/
def statusColour : wifi_state_t → Nat
  | .connected => 0x001F
  | .connecting => 0x07FF
  | .reconnecting => 0x07FF
  | .failed => 0x07E0
  | .disconnected => 0x001F

/-- The status text drawn by updateWiFiStatus (main.cpp lines 289-300):
the IP address when connected, otherwise a fixed label. -/
def statusText (st : wifi_state_t) (ip : String) : String :=
  match st with
  | .connected => ip
  | .connecting => "CONNECTING"
  | .reconnecting => "RECONNECTING"
  | .failed => "FAILED"
  | .disconnected => "OFFLINE"

/-- The indicator redraw block of updateWiFiStatus (main.cpp lines 268-302):
runs only when the derived colour differs from the cached wifiColour or
forceRedraw is set; it updates the cached colour, draws the circle and the
status text, and consumes forceRedraw. -/
def wifiIndicator (s : SysState) : SysState :=
  let newColour := statusColour s.wifiState
  if newColour ≠ s.wifiColour ∨ s.forceRedraw = true then
    { s with wifiColour := newColour
             displayedStatusText := statusText s.wifiState s.ipAddress
             indicatorDraws := s.indicatorDraws + 1
             forceRedraw := false }
  else s

/-- updateWiFiStatus from main.cpp: the periodic WiFi tick. It is a no-op
until WIFI_CHECK_INTERVAL has passed since lastWifiCheck; then it performs
the per-state action and runs the indicator redraw block. currentIP stands
for the collaborator call WiFi.localIP().toString(). -/
def updateWiFiStatus (currentMillis : Nat) (currentIP : String) (s : SysState) : SysState :=
  if currentMillis - s.lastWifiCheck < WIFI_CHECK_INTERVAL then s
  else
    let s1 := { s with lastWifiCheck := currentMillis }
    let s2 :=
      match s1.wifiState with
      | .disconnected => startWiFi currentMillis s1
      | .connecting =>
          if WIFI_CONNECT_TIMEOUT < currentMillis - s1.wifiConnectStart then
            WiFiTimeout currentMillis s1
          else s1
      | .reconnecting =>
          if WIFI_CONNECT_TIMEOUT < currentMillis - s1.wifiConnectStart then
            WiFiTimeout currentMillis s1
          else s1
      | .failed => WiFiRecovery currentMillis s1
      | .connected =>
          if s1.ipAddress ≠ currentIP then
            { s1 with ipAddress := currentIP, forceRedraw := true }
          else s1
    wifiIndicator s2

/-- WiFiEvent from main.cpp: the asynchronous link-event handler. GOT_IP is
honoured only in CONNECTING/RECONNECTING (enters CONNECTED, records the
address, zeroes the attempt counter, zeroes lastNTPSync to re-arm the NTP
sync, and requests a redraw); DISCONNECTED is honoured only in CONNECTED. -/
def WiFiEvent (currentMillis : Nat) (currentIP : String) (event : WiFiEvent_t)
    (s : SysState) : SysState :=
  match event with
  | .staConnected => s
  | .staGotIP =>
      if s.wifiState = .connecting ∨ s.wifiState = .reconnecting then
        { s with wifiState := .connected
                 ipAddress := currentIP
                 reconnectAttempts := 0
                 lastNTPSync := 0
                 forceRedraw := true }
      else s
  | .staDisconnected =>
      if s.wifiState = .connected then
        { s with wifiState := .reconnecting
                 wifiConnectStart := currentMillis
                 forceRedraw := true }
      else s
  | .otherEvent => s

/-- The sync-due test of updateCurrentTime (main.cpp line 124):
`forceNTPSync || millis() - lastNTPSync > ntpSyncInterval`. -/
def shouldSync (now : Nat) (forceNTPSync : Bool) (s : SysState) : Bool :=
  forceNTPSync || decide (ntpSyncInterval < now - s.lastNTPSync)

/-- updateCurrentTime from main.cpp, with the collaborator call
getLocalTime/mktime modelled as syncResult : Option Nat (some epoch on
success, none on failure: the attempt is made only when the sync is due).
On success the baseline is reset and elapsedSeconds zeroed; on failure the
estimate is untouched. The strftime formatting of the derived fields is
external presentation and is not needed by the claims. -/
def updateCurrentTime (now : Nat) (syncResult : Option Nat) (forceNTPSync : Bool)
    (s : SysState) : SysState :=
  if shouldSync now forceNTPSync s then
    match syncResult with
    | some epoch =>
        { s with lastSyncedTime := epoch
                 lastNTPSync := now
                 elapsedSeconds := 0 }
    | none => s
  else s

/-- The displayed wall-clock estimate (main.cpp line 134):
lastSyncedTime + elapsedSeconds. -/
def currentTime (s : SysState) : Nat := s.lastSyncedTime + s.elapsedSeconds

/-- The once-per-second ticker in loop (main.cpp lines 540-545): when at
least 1000 ms of monotonic time passed since lastMillis, elapsedSeconds is
advanced by exactly one, lastMillis is stamped, and updateCurrentTime runs
without force. -/
def secondsTick (currentMillis : Nat) (syncResult : Option Nat) (s : SysState) : SysState :=
  if 1000 ≤ currentMillis - s.lastMillis then
    updateCurrentTime currentMillis syncResult false
      { s with elapsedSeconds := s.elapsedSeconds + 1, lastMillis := currentMillis }
  else s

/-- Tags for calls of the drawing collaborator issued by one loop frame
(main.cpp lines 551-646). Pure text-configuration calls (setTextFont,
setTextDatum, setFreeFont, setTextSize) draw nothing and are not recorded. -/
inductive DrawCall where
  | animation
  | staticChrome
  | clockBg
  | timeText
  | dateText
  | secondsRegion
  | weekdayRegion
  | fpsRegion
  | composite
  | present
deriving DecidableEq

/-- The upstream values one render frame reads: the cached time and date
strings, the formatted current second, the weekday name and the integer FPS
value. They come from updateCurrentTime / the FPS accounting; their strftime
production is external presentation. -/
structure RenderIn where
  cachedTimeString : String
  cachedDateString : String
  currentSecond : String
  weekdayString : String
  fpsValue : Nat
deriving DecidableEq

/-- String.toUpperCase of the Arduino String class, written over the
underlying character list so that the kernel can evaluate it. -/
def toUpperStr (s : String) : String := String.mk (s.data.map Char.toUpper)

/-- Weekday value the frame compares against its cache (main.cpp lines
605-606): first three letters of the weekday name, uppercased. -/
def currentWeekdayOf (inp : RenderIn) : String :=
  toUpperStr (inp.weekdayString.take 3)

/-- FPS string the frame compares against its cache (main.cpp line 621). -/
def currentFPSOf (inp : RenderIn) : String := toString inp.fpsValue

/-- The drawing-collaborator calls every frame makes unconditionally: the
animation image, the two clock background rectangles, the time text, the
date text, the four sprite compositions and the final push to the screen. -/
def baseCalls : List DrawCall :=
  [.animation, .clockBg, .clockBg, .timeText, .dateText,
   .composite, .composite, .composite, .composite, .present]

/-- The render section of loop (main.cpp lines 551-646), returning the new
state together with the list of drawing-collaborator calls the frame made, in
order. The static-elements guard clears forceRedraw before the seconds,
weekday and FPS caches are compared, exactly as in the source; the twelve
staticChrome entries are the drawing calls of drawStaticElements, which runs
its body only when staticElementsDrawn is still false. -/
def renderFrame (inp : RenderIn) (s : SysState) : SysState × List DrawCall :=
  let calls1 : List DrawCall := [.animation]
  let staticCalls : List DrawCall :=
    if s.staticElementsDrawn = false ∨ s.forceRedraw = true then
      (if s.staticElementsDrawn = false then List.replicate 12 .staticChrome else [])
    else []
  let s2 : SysState :=
    if s.staticElementsDrawn = false ∨ s.forceRedraw = true then
      { s with staticElementsDrawn := true, forceRedraw := false }
    else s
  let calls2 := calls1 ++ staticCalls ++ [.clockBg, .clockBg, .timeText, .dateText]
  let s3 :=
    if s2.lastSecond ≠ inp.currentSecond ∨ s2.forceRedraw = true then
      { s2 with lastSecond := inp.currentSecond }
    else s2
  let calls3 := calls2 ++
    (if s2.lastSecond ≠ inp.currentSecond ∨ s2.forceRedraw = true then
      [.secondsRegion, .secondsRegion] else [])
  let s4 :=
    if s3.lastWeekday ≠ currentWeekdayOf inp ∨ s3.forceRedraw = true then
      { s3 with lastWeekday := currentWeekdayOf inp }
    else s3
  let calls4 := calls3 ++
    (if s3.lastWeekday ≠ currentWeekdayOf inp ∨ s3.forceRedraw = true then
      [.weekdayRegion, .weekdayRegion, .weekdayRegion] else [])
  let s5 :=
    if s4.lastFPSString ≠ currentFPSOf inp ∨ s4.forceRedraw = true then
      { s4 with lastFPSString := currentFPSOf inp }
    else s4
  let calls5 := calls4 ++
    (if s4.lastFPSString ≠ currentFPSOf inp ∨ s4.forceRedraw = true then
      [.fpsRegion, .fpsRegion, .fpsRegion, .fpsRegion] else [])
  (s5, calls5 ++ [.composite, .composite, .composite, .composite, .present])

/-- Arduino constrain(amt, low, high). -/
def constrain (x lo hi : Int) : Int :=
  if x < lo then lo else if hi < x then hi else x

/-- State of adjustBrightness (main.cpp lines 352-376): the two static
previous button samples (true = HIGH), the brightness global, and a ghost
field recording the last value written to the backlight pin by
analogWrite. -/
structure BtnState where
  prevBootBtn : Bool
  prevKeyBtn : Bool
  brightness : Int
  backlight : Int
deriving DecidableEq

/-- Initial brightness state: both previous samples HIGH, brightness 100,
backlight written 100 in setup. -/
def initialBtnState : BtnState :=
  { prevBootBtn := true, prevKeyBtn := true, brightness := 100, backlight := 100 }

/-- adjustBrightness from main.cpp: one poll. A HIGH-to-LOW edge on the boot
button steps brightness down by 25, on the key button up by 25, both
constrained to the range 100-250 and pushed to the backlight synchronously;
then the previous samples are updated. -/
def adjustBrightness (currBootBtn currKeyBtn : Bool) (b : BtnState) : BtnState :=
  let b1 :=
    if b.prevBootBtn = true ∧ currBootBtn = false then
      let br := constrain (b.brightness - 25) 100 250
      { b with brightness := br, backlight := br }
    else b
  let b2 :=
    if b1.prevKeyBtn = true ∧ currKeyBtn = false then
      let br := constrain (b1.brightness + 25) 100 250
      { b1 with brightness := br, backlight := br }
    else b1
  { b2 with prevBootBtn := currBootBtn, prevKeyBtn := currKeyBtn }

/-- A whole sequence of polls: each list entry carries the (boot, key)
samples one call of adjustBrightness reads, folded left over the state. -/
def pollSeq (inputs : List (Bool × Bool)) (b : BtnState) : BtnState :=
  inputs.foldl (fun st i => adjustBrightness i.1 i.2 st) b

/-- One step of the system as driven by the loop and the asynchronous event
handler: a WiFi tick, a link event, a once-per-second time tick, or a render
frame. Claims about all sequences of ticks and events quantify over this. -/
inductive Step : SysState → SysState → Prop where
  | wifiTick (now : Nat) (ip : String) (s : SysState) :
      Step s (updateWiFiStatus now ip s)
  | linkEvent (now : Nat) (ip : String) (e : WiFiEvent_t) (s : SysState) :
      Step s (WiFiEvent now ip e s)
  | timeTick (now : Nat) (sync : Option Nat) (s : SysState) :
      Step s (secondsTick now sync s)
  | render (inp : RenderIn) (s : SysState) :
      Step s (renderFrame inp s).1

/-- States reachable from the initial globals by any sequence of steps. -/
inductive Reachable : SysState → Prop where
  | init : Reachable initialState
  | step {s t : SysState} : Reachable s → Step s t → Reachable t

/-! ### Helper lemmas -/

@[simp] theorem wifiIndicator_wifiState (s : SysState) :
    (wifiIndicator s).wifiState = s.wifiState := by
  simp only [wifiIndicator]; split <;> rfl

@[simp] theorem wifiIndicator_reconnectAttempts (s : SysState) :
    (wifiIndicator s).reconnectAttempts = s.reconnectAttempts := by
  simp only [wifiIndicator]; split <;> rfl

@[simp] theorem wifiIndicator_elapsedSeconds (s : SysState) :
    (wifiIndicator s).elapsedSeconds = s.elapsedSeconds := by
  simp only [wifiIndicator]; split <;> rfl

@[simp] theorem wifiIndicator_wifiFailedTime (s : SysState) :
    (wifiIndicator s).wifiFailedTime = s.wifiFailedTime := by
  simp only [wifiIndicator]; split <;> rfl

@[simp] theorem startWiFi_elapsed (now : Nat) (s : SysState) :
    (startWiFi now s).elapsedSeconds = s.elapsedSeconds := rfl

@[simp] theorem WiFiTimeout_elapsed (now : Nat) (s : SysState) :
    (WiFiTimeout now s).elapsedSeconds = s.elapsedSeconds := by
  simp only [WiFiTimeout]; split_ifs <;> rfl

@[simp] theorem WiFiRecovery_elapsed (now : Nat) (s : SysState) :
    (WiFiRecovery now s).elapsedSeconds = s.elapsedSeconds := by
  simp only [WiFiRecovery]; split <;> rfl

theorem updateCurrentTime_elapsed (s : SysState) (now : Nat) (sync : Option Nat)
    (force : Bool) :
    (updateCurrentTime now sync force s).elapsedSeconds =
      (if shouldSync now force s && sync.isSome then 0 else s.elapsedSeconds) := by
  unfold updateCurrentTime
  cases h : shouldSync now force s <;> cases sync <;> simp [h]

theorem updateWiFiStatus_elapsed (s : SysState) (now : Nat) (ip : String) :
    (updateWiFiStatus now ip s).elapsedSeconds = s.elapsedSeconds := by
  simp only [updateWiFiStatus]
  split
  · rfl
  · rw [wifiIndicator_elapsedSeconds]
    split <;> (try split) <;> simp

theorem WiFiEvent_elapsed (s : SysState) (now : Nat) (ip : String) (e : WiFiEvent_t) :
    (WiFiEvent now ip e s).elapsedSeconds = s.elapsedSeconds := by
  unfold WiFiEvent
  split <;> (try split) <;> rfl

theorem renderFrame_elapsed (inp : RenderIn) (s : SysState) :
    ((renderFrame inp s).1).elapsedSeconds = s.elapsedSeconds := by
  simp only [renderFrame]
  split_ifs <;> rfl

@[simp] theorem updateCurrentTime_wifiState (now : Nat) (sync : Option Nat)
    (force : Bool) (s : SysState) :
    (updateCurrentTime now sync force s).wifiState = s.wifiState := by
  unfold updateCurrentTime
  split <;> (try split) <;> rfl

@[simp] theorem updateCurrentTime_reconnectAttempts (now : Nat) (sync : Option Nat)
    (force : Bool) (s : SysState) :
    (updateCurrentTime now sync force s).reconnectAttempts = s.reconnectAttempts := by
  unfold updateCurrentTime
  split <;> (try split) <;> rfl

@[simp] theorem secondsTick_wifiState (now : Nat) (sync : Option Nat) (s : SysState) :
    (secondsTick now sync s).wifiState = s.wifiState := by
  unfold secondsTick
  split <;> simp

@[simp] theorem secondsTick_reconnectAttempts (now : Nat) (sync : Option Nat)
    (s : SysState) :
    (secondsTick now sync s).reconnectAttempts = s.reconnectAttempts := by
  unfold secondsTick
  split <;> simp

@[simp] theorem renderFrame_wifiState (inp : RenderIn) (s : SysState) :
    ((renderFrame inp s).1).wifiState = s.wifiState := by
  simp only [renderFrame]
  split_ifs <;> rfl

@[simp] theorem renderFrame_reconnectAttempts (inp : RenderIn) (s : SysState) :
    ((renderFrame inp s).1).reconnectAttempts = s.reconnectAttempts := by
  simp only [renderFrame]
  split_ifs <;> rfl

/-- After any frame, the region caches agree with the upstream values, the
static chrome is drawn, and the force-redraw flag is clear. -/
theorem renderFrame_after (inp : RenderIn) (s : SysState) :
    (renderFrame inp s).1.lastSecond = inp.currentSecond ∧
    (renderFrame inp s).1.lastWeekday = currentWeekdayOf inp ∧
    (renderFrame inp s).1.lastFPSString = currentFPSOf inp ∧
    (renderFrame inp s).1.staticElementsDrawn = true ∧
    (renderFrame inp s).1.forceRedraw = false := by
  simp only [renderFrame]
  split_ifs <;> simp_all

/-- A frame rendered from a clean state (caches matching, chrome drawn, no
force-redraw pending) makes exactly the unconditional drawing calls. -/
theorem renderFrame_clean (inp : RenderIn) (s : SysState)
    (h1 : s.staticElementsDrawn = true) (h2 : s.forceRedraw = false)
    (h3 : s.lastSecond = inp.currentSecond)
    (h4 : s.lastWeekday = currentWeekdayOf inp)
    (h5 : s.lastFPSString = currentFPSOf inp) :
    (renderFrame inp s).2 = baseCalls := by
  simp [renderFrame, baseCalls, h1, h2, h3, h4, h5]

/-! ### Concrete scenario traces

Each claim that needs a concrete run gets its own explicit tick chain. The
network never succeeds in the C1/C2/C6/C8 chains: no link event is
delivered, so the state machine sees only timeout-driven ticks. -/

/-- C1 trace, step 0: the initial globals. -/
def c1s0 : SysState := initialState

/-- C1 trace: first gated tick at 5000 ms enters CONNECTING. -/
def c1s1 : SysState := updateWiFiStatus 5000 "" c1s0

/-- C1 trace: first connect-timeout tick (10001 ms after the attempt). -/
def c1s2 : SysState := updateWiFiStatus 15001 "" c1s1

/-- C1 trace: second connect-timeout tick. -/
def c1s3 : SysState := updateWiFiStatus 25002 "" c1s2

/-- C1 trace: third connect-timeout tick. -/
def c1s4 : SysState := updateWiFiStatus 35003 "" c1s3

/-- C1 trace: fourth connect-timeout tick. -/
def c1s5 : SysState := updateWiFiStatus 45004 "" c1s4

/-- C1 trace: tick 120001 ms after the failure timestamp. -/
def c1s6 : SysState := updateWiFiStatus 165005 "" c1s5

/-- C1 trace: the tick following recovery. -/
def c1s7 : SysState := updateWiFiStatus 170006 "" c1s6

/-- C2 trace: an independent never-succeeding run, ticked at 6000, 17000,
28000, 39000, 50000 and 171000 ms. -/
def c2s1 : SysState := updateWiFiStatus 6000 "" initialState

/-- C2 trace: first timeout tick. -/
def c2s2 : SysState := updateWiFiStatus 17000 "" c2s1

/-- C2 trace: second timeout tick. -/
def c2s3 : SysState := updateWiFiStatus 28000 "" c2s2

/-- C2 trace: third timeout tick. -/
def c2s4 : SysState := updateWiFiStatus 39000 "" c2s3

/-- C2 trace: fourth timeout tick, reaching FAILED at 50000 ms. -/
def c2s5 : SysState := updateWiFiStatus 50000 "" c2s4

/-- C2 trace: recovery tick 121000 ms after the failure timestamp. -/
def c2s6 : SysState := updateWiFiStatus 171000 "" c2s5

/-- C6 trace: never-succeeding run ticked at 7000, 18000, 29000, 40000 and
51000 ms; the last tick reaches FAILED with wifiFailedTime = 51000. -/
def c6sFailed : SysState :=
  updateWiFiStatus 51000 ""
    (updateWiFiStatus 40000 ""
      (updateWiFiStatus 29000 ""
        (updateWiFiStatus 18000 ""
          (updateWiFiStatus 7000 "" initialState))))

/-- C6 trace: a tick at 171000 ms, exactly failureCooldownMs after the
failure timestamp 51000. -/
def c6sAtCooldown : SysState := updateWiFiStatus 171000 "" c6sFailed

/-- C8 trace: tick at 5500 ms enters CONNECTING and draws the indicator. -/
def c8s1 : SysState := updateWiFiStatus 5500 "" initialState

/-- C8 trace: timeout tick at 16000 ms moves CONNECTING to RECONNECTING. -/
def c8s2 : SysState := updateWiFiStatus 16000 "" c8s1

/-- C7 trace: CONNECTING at 5000 ms, then a successful forced sync at
100000 ms (mirroring the mandatory startup sync). -/
def c7synced : SysState :=
  updateCurrentTime 100000 (some 1000) true (updateWiFiStatus 5000 "" initialState)

/-- C7 trace: the GOT_IP link event at 200000 ms enters CONNECTED and zeroes
lastNTPSync. -/
def c7connected : SysState := WiFiEvent 200000 "192.168.1.7" .staGotIP c7synced

/-- Render inputs used by the C4 scenario. -/
def c4inp : RenderIn :=
  { cachedTimeString := "12:34"
    cachedDateString := "05 Oct 25"
    currentSecond := "07"
    weekdayString := "Monday"
    fpsValue := 30 }

/-- C4 scenario: the state after a first frame rendered from the initial
globals, so every region cache matches the (unchanged) upstream values. -/
def c4afterFirst : SysState := (renderFrame c4inp initialState).1

/-- Render inputs used by the C5 scenario. -/
def c5inp : RenderIn :=
  { cachedTimeString := "21:09"
    cachedDateString := "11 Oct 25"
    currentSecond := "33"
    weekdayString := "Saturday"
    fpsValue := 42 }

/-- C5 failing input: the force-redraw flag is set while every region cache
already matches its upstream value and the static chrome is drawn. -/
def c5state : SysState :=
  { initialState with
      staticElementsDrawn := true
      forceRedraw := true
      lastSecond := "33"
      lastWeekday := "SAT"
      lastFPSString := "42" }

/-- C9 scenario: previous samples HIGH, brightness already at the lower
bound 100. -/
def c9atMin : BtnState := initialBtnState

/-- C9 witness scenario: brightness 150, both previous samples HIGH. -/
def c9mid : BtnState :=
  { prevBootBtn := true, prevKeyBtn := true, brightness := 150, backlight := 150 }

/-! ### Claim theorems -/

/-- Claim C1, counterexample. In the never-succeeding run started from
Connecting (entered at 5000 ms), the first connect-timeout elapse does not
increment reconnectAttemptCount (the C increment short-circuits on the state
test), and after exactly 3 timeout cycles the status is still Reconnecting,
not Failed as the claim states. -/
theorem C1_counterexample :
    c1s1.wifiState = .connecting ∧ c1s1.reconnectAttempts = 0 ∧
    c1s2.reconnectAttempts = 0 ∧
    c1s4.wifiState = .reconnecting ∧ c1s4.wifiState ≠ .failed := by
  decide

/-- Claim C1, amended: starting from Connecting with a network that never
succeeds, the first connect-timeout elapse moves to Reconnecting and reissues
the connection request without incrementing reconnectAttemptCount; each
subsequent elapse increments it and reissues; the status becomes Failed on
the fourth timeout cycle with the counter at maxReconnectAttempts = 3; after
strictly more than failureCooldownMs a tick moves the status to Disconnected,
and the next tick issues a new Connecting attempt with a fresh counter. -/
theorem C1_amended_thm :
    (c1s1.wifiState = .connecting ∧ c1s1.reconnectAttempts = 0 ∧
      c1s1.wifiBeginCount = 1) ∧
    (c1s2.wifiState = .reconnecting ∧ c1s2.reconnectAttempts = 0 ∧
      c1s2.wifiBeginCount = 2) ∧
    (c1s3.wifiState = .reconnecting ∧ c1s3.reconnectAttempts = 1 ∧
      c1s3.wifiBeginCount = 3) ∧
    (c1s4.wifiState = .reconnecting ∧ c1s4.reconnectAttempts = 2 ∧
      c1s4.wifiBeginCount = 4) ∧
    (c1s5.wifiState = .failed ∧
      c1s5.reconnectAttempts = MAX_RECONNECT_ATTEMPTS ∧
      c1s5.wifiBeginCount = 4 ∧ c1s5.wifiFailedTime = 45004) ∧
    (c1s6.wifiState = .disconnected) ∧
    (c1s7.wifiState = .connecting ∧ c1s7.reconnectAttempts = 0 ∧
      c1s7.wifiBeginCount = 5) := by
  decide

/-- Claim C2, counterexample. The transition Failed to Disconnected taken at
171000 ms leaves reconnectAttemptCount at 3: the counter is not reset to 0
on entering Disconnected (it is reset only by the next startWiFi, and by
entering Connected). -/
theorem C2_counterexample :
    c2s5.wifiState = .failed ∧ c2s5.reconnectAttempts = 3 ∧
    c2s6.wifiState = .disconnected ∧ c2s6.reconnectAttempts = 3 ∧
    c2s6.reconnectAttempts ≠ 0 := by
  decide

/-- Claim C6, counterexample. With the failure timestamped at 51000 ms, a
tick at 171000 ms, after exactly failureCooldownMs = 120000 ms has elapsed,
does not transition: the code requires strictly more than the cooldown, so
the status is still Failed. -/
theorem C6_counterexample :
    c6sFailed.wifiState = .failed ∧ c6sFailed.wifiFailedTime = 51000 ∧
    171000 - c6sFailed.wifiFailedTime = failureCooldownMs ∧
    c6sAtCooldown.wifiState = .failed := by
  decide

/-- Claim C7, code bug. Entering Connected zeroes lastNTPSync (the code
comment says force NTP sync on reconnection), but the re-arm condition
millis - lastNTPSync > ntpSyncInterval then only fires once uptime exceeds
ntpSyncInterval: at 300001 ms of uptime the next time tick performs no sync
attempt at all (the estimate keeps the stale baseline 1000 even though the
collaborator would answer successfully), while the same tick at 600001 ms
does sync. -/
theorem C7_bug_thm :
    c7connected.wifiState = .connected ∧ c7connected.lastNTPSync = 0 ∧
    shouldSync 300001 false c7connected = false ∧
    (updateCurrentTime 300001 (some 2000) false c7connected).lastSyncedTime = 1000 ∧
    (updateCurrentTime 300001 (some 2000) false c7connected).lastNTPSync = 0 ∧
    (updateCurrentTime 600001 (some 2000) false c7connected).lastSyncedTime = 2000 := by
  decide

/-- Claim C8, code bug. The indicator redraw is keyed on the derived colour,
not the status (the code comment says always redraw the status area when
state changes); Connecting and Reconnecting share colour 0x07FF, so the
timeout transition Connecting to Reconnecting performs no redraw: the
indicator block does not run again and the displayed text stays CONNECTING
although the current status text is RECONNECTING. -/
theorem C8_bug_thm :
    c8s1.wifiState = .connecting ∧ c8s1.displayedStatusText = "CONNECTING" ∧
    c8s1.indicatorDraws = 1 ∧
    c8s2.wifiState = .reconnecting ∧ c8s2.indicatorDraws = 1 ∧
    c8s2.displayedStatusText = "CONNECTING" ∧
    statusText c8s2.wifiState c8s2.ipAddress = "RECONNECTING" := by
  decide

/-- Claim C4, counterexample. A second renderFrame with no upstream changes
and no force-redraw still invokes drawing-collaborator calls outside the
animation region: the time text (with the clock backgrounds, date text,
sprite composition and final present) is drawn unconditionally every
frame. -/
theorem C4_counterexample :
    c4afterFirst.forceRedraw = false ∧
    DrawCall.timeText ∈ (renderFrame c4inp c4afterFirst).2 ∧
    DrawCall.timeText ≠ DrawCall.animation := by
  decide

/-- Claim C5, code bug. The one-shot force-redraw flag is consumed by the
static-elements guard before the seconds, weekday and FPS caches are
compared, so a frame entered with the flag set and clean caches redraws none
of the cached regions (the frame emits exactly the unconditional calls); the
flag is cleared after the one frame. -/
theorem C5_bug_thm :
    c5state.forceRedraw = true ∧
    (renderFrame c5inp c5state).2 = baseCalls ∧
    DrawCall.secondsRegion ∉ (renderFrame c5inp c5state).2 ∧
    DrawCall.weekdayRegion ∉ (renderFrame c5inp c5state).2 ∧
    DrawCall.fpsRegion ∉ (renderFrame c5inp c5state).2 ∧
    (renderFrame c5inp c5state).1.forceRedraw = false := by
  decide

/-- Claim C9, counterexample. A HIGH-to-LOW edge on the boot button while
brightness is at the lower bound 100 changes brightness by zero, not by the
fixed step 25: the step is clamped at the range boundary. -/
theorem C9_counterexample :
    c9atMin.prevBootBtn = true ∧ c9atMin.brightness = 100 ∧
    (adjustBrightness false true c9atMin).brightness = 100 ∧
    (adjustBrightness false true c9atMin).brightness - c9atMin.brightness = 0 := by
  decide

/-- Claim C3, confirmed. In a time-cache tick, elapsedSecondsSinceSync is
set to 0 exactly when the sync is due and the collaborator answers
successfully, and is left untouched otherwise; the once-per-second ticker
advances it by exactly one per observed second (unless that very tick also
syncs successfully); WiFi ticks, link events and render frames never change
it. -/
theorem C3_thm (s : SysState) (now : Nat) (sync : Option Nat) (force : Bool)
    (ip : String) (e : WiFiEvent_t) (inp : RenderIn) :
    (updateCurrentTime now sync force s).elapsedSeconds =
      (if shouldSync now force s && sync.isSome then 0 else s.elapsedSeconds)
    ∧ (secondsTick now sync s).elapsedSeconds =
      (if 1000 ≤ now - s.lastMillis then
         (if shouldSync now false s && sync.isSome then 0 else s.elapsedSeconds + 1)
       else s.elapsedSeconds)
    ∧ (updateWiFiStatus now ip s).elapsedSeconds = s.elapsedSeconds
    ∧ (WiFiEvent now ip e s).elapsedSeconds = s.elapsedSeconds
    ∧ ((renderFrame inp s).1).elapsedSeconds = s.elapsedSeconds := by
  refine ⟨updateCurrentTime_elapsed s now sync force, ?_,
    updateWiFiStatus_elapsed s now ip, WiFiEvent_elapsed s now ip e,
    renderFrame_elapsed inp s⟩
  unfold secondsTick
  split
  · rw [updateCurrentTime_elapsed]
    simp [shouldSync]
  · rfl

/-- Claim C4, amended: after any renderFrame call every cached region
satisfies lastRenderedValue = currentValue, and a second renderFrame with no
upstream changes invokes no drawing calls for the cached regions (static
chrome, seconds, weekday, FPS) — it performs exactly the unconditional
calls, which besides the animation frame also include the clock backgrounds,
the time and date text, the four sprite compositions and the final
present. -/
theorem C4_amended_thm (inp : RenderIn) (s : SysState) :
    ((renderFrame inp s).1.lastSecond = inp.currentSecond
      ∧ (renderFrame inp s).1.lastWeekday = currentWeekdayOf inp
      ∧ (renderFrame inp s).1.lastFPSString = currentFPSOf inp)
    ∧ (renderFrame inp (renderFrame inp s).1).2 = baseCalls := by
  obtain ⟨h1, h2, h3, h4, h5⟩ := renderFrame_after inp s
  exact ⟨⟨h1, h2, h3⟩, renderFrame_clean inp _ h4 h5 h1 h2 h3⟩

/-- Claim C10, confirmed. A got-address event changes nothing at all unless
the status is Connecting or Reconnecting; a disassociation event changes
nothing unless the status is Connected; the remaining events are always
no-ops. -/
theorem C10_thm (s : SysState) (now : Nat) (ip : String) :
    WiFiEvent now ip .staConnected s = s
    ∧ WiFiEvent now ip .otherEvent s = s
    ∧ (WiFiEvent now ip .staGotIP s = s ∨
        (s.wifiState = .connecting ∨ s.wifiState = .reconnecting))
    ∧ (WiFiEvent now ip .staDisconnected s = s ∨ s.wifiState = .connected) := by
  refine ⟨rfl, rfl, ?_, ?_⟩
  · by_cases h : s.wifiState = .connecting ∨ s.wifiState = .reconnecting
    · exact Or.inr h
    · exact Or.inl (by simp [WiFiEvent, h])
  · by_cases h : s.wifiState = .connected
    · exact Or.inr h
    · exact Or.inl (by simp [WiFiEvent, h])

/-- The constrain result lies in the clamp range whenever lo ≤ hi. -/
theorem constrain_range (x lo hi : Int) (h : lo ≤ hi) :
    lo ≤ constrain x lo hi ∧ constrain x lo hi ≤ hi := by
  unfold constrain
  split_ifs <;> omega

/-- The previous-sample fields after a poll are the samples just read. -/
theorem adjustBrightness_prev (cb ck : Bool) (b : BtnState) :
    (adjustBrightness cb ck b).prevBootBtn = cb ∧
    (adjustBrightness cb ck b).prevKeyBtn = ck := by
  unfold adjustBrightness
  split_ifs <;> exact ⟨rfl, rfl⟩

/-- A poll that reads boot HIGH and key LOW is a no-op once the previous key
sample is already LOW: the state is a fixed point. -/
theorem adjustBrightness_held (b : BtnState) (hpb : b.prevBootBtn = true)
    (hpk : b.prevKeyBtn = false) :
    adjustBrightness true false b = b := by
  obtain ⟨pb, pk, br, bl⟩ := b
  simp_all [adjustBrightness]

/-- A poll that reads boot LOW and key HIGH is a no-op once the previous
boot sample is already LOW: the state is a fixed point. -/
theorem adjustBrightness_heldBoot (b : BtnState) (hpb : b.prevBootBtn = false)
    (hpk : b.prevKeyBtn = true) :
    adjustBrightness false true b = b := by
  obtain ⟨pb, pk, br, bl⟩ := b
  simp_all [adjustBrightness]

/-- Any single poll, whatever the inputs and previous samples, keeps the
brightness within 100-250 if it was there before. -/
theorem adjustBrightness_range (cb ck : Bool) (b : BtnState)
    (hlo : 100 ≤ b.brightness) (hhi : b.brightness ≤ 250) :
    100 ≤ (adjustBrightness cb ck b).brightness ∧
      (adjustBrightness cb ck b).brightness ≤ 250 := by
  simp only [adjustBrightness]
  split_ifs <;>
    first
      | exact ⟨hlo, hhi⟩
      | exact constrain_range _ 100 250 (by omega)

/-- Every sequence of polls keeps the brightness within 100-250. -/
theorem pollSeq_range (inputs : List (Bool × Bool)) (b : BtnState)
    (hlo : 100 ≤ b.brightness) (hhi : b.brightness ≤ 250) :
    100 ≤ (pollSeq inputs b).brightness ∧ (pollSeq inputs b).brightness ≤ 250 := by
  induction inputs generalizing b with
  | nil => exact ⟨hlo, hhi⟩
  | cons i rest ih =>
      have h := adjustBrightness_range i.1 i.2 b hlo hhi
      exact ih (adjustBrightness i.1 i.2 b) h.1 h.2

/-- Claim C9, amended: for every sequence of poll calls and button inputs,
the brightness stays within 100-250 inclusive; a HIGH-to-LOW edge on the key
button steps brightness up by 25 and one on the boot button steps it down by
25, both clamped to the range (so the change is the fixed step except at a
bound, where it is truncated, possibly to zero) and both writing the new
value to the backlight synchronously; and holding either button LOW for any
number of further polls changes nothing more: at most one step per press. -/
theorem C9_amended_thm (b bSeq : BtnState) (inputs : List (Bool × Bool)) (n : Nat)
    (hlo : 100 ≤ bSeq.brightness) (hhi : bSeq.brightness ≤ 250)
    (hpb : b.prevBootBtn = true) (hpk : b.prevKeyBtn = true) :
    (100 ≤ (pollSeq inputs bSeq).brightness
      ∧ (pollSeq inputs bSeq).brightness ≤ 250)
    ∧ ((adjustBrightness true false b).brightness =
        constrain (b.brightness + 25) 100 250
      ∧ (adjustBrightness true false b).backlight =
        (adjustBrightness true false b).brightness)
    ∧ ((adjustBrightness false true b).brightness =
        constrain (b.brightness - 25) 100 250
      ∧ (adjustBrightness false true b).backlight =
        (adjustBrightness false true b).brightness)
    ∧ Nat.iterate (adjustBrightness true false) (n + 1) b =
        adjustBrightness true false b
    ∧ Nat.iterate (adjustBrightness false true) (n + 1) b =
        adjustBrightness false true b := by
  refine ⟨pollSeq_range inputs bSeq hlo hhi, ?_, ?_, ?_, ?_⟩
  · constructor
    · simp [adjustBrightness, hpk]
    · simp [adjustBrightness, hpk]
  · constructor
    · simp [adjustBrightness, hpb]
    · simp [adjustBrightness, hpb]
  · have hfix : adjustBrightness true false (adjustBrightness true false b) =
        adjustBrightness true false b := by
      apply adjustBrightness_held
      · exact (adjustBrightness_prev true false b).1
      · exact (adjustBrightness_prev true false b).2
    calc Nat.iterate (adjustBrightness true false) (n + 1) b
        = Nat.iterate (adjustBrightness true false) n
            (adjustBrightness true false b) := by
          rw [Function.iterate_succ_apply]
      _ = adjustBrightness true false b := Function.iterate_fixed hfix n
  · have hfix : adjustBrightness false true (adjustBrightness false true b) =
        adjustBrightness false true b := by
      apply adjustBrightness_heldBoot
      · exact (adjustBrightness_prev false true b).1
      · exact (adjustBrightness_prev false true b).2
    calc Nat.iterate (adjustBrightness false true) (n + 1) b
        = Nat.iterate (adjustBrightness false true) n
            (adjustBrightness false true b) := by
          rw [Function.iterate_succ_apply]
      _ = adjustBrightness false true b := Function.iterate_fixed hfix n

/-- A concrete poll-input sequence exercising idle polls and holds of both
buttons, used to instantiate the C9 amended theorem. -/
def c9inputs : List (Bool × Bool) :=
  [(true, true), (false, true), (false, true), (true, false), (true, false), (true, true)]

/-- Claim C9, witness: the amended statement evaluated at brightness 150,
over the concrete poll sequence, with each button held LOW across 50
consecutive polls. -/
theorem C9_amended_witness :
    (100 ≤ (pollSeq c9inputs c9mid).brightness
      ∧ (pollSeq c9inputs c9mid).brightness ≤ 250)
    ∧ ((adjustBrightness true false c9mid).brightness =
        constrain (c9mid.brightness + 25) 100 250
      ∧ (adjustBrightness true false c9mid).backlight =
        (adjustBrightness true false c9mid).brightness)
    ∧ ((adjustBrightness false true c9mid).brightness =
        constrain (c9mid.brightness - 25) 100 250
      ∧ (adjustBrightness false true c9mid).backlight =
        (adjustBrightness false true c9mid).brightness)
    ∧ Nat.iterate (adjustBrightness true false) 50 c9mid =
        adjustBrightness true false c9mid
    ∧ Nat.iterate (adjustBrightness false true) 50 c9mid =
        adjustBrightness false true c9mid :=
  C9_amended_thm c9mid c9mid c9inputs 49 (by decide) (by decide) rfl rfl

/-- Claim C6, amended: while the status is Failed, a gated tick moves it to
Disconnected exactly when strictly more than failureCooldownMs has elapsed
since the failure timestamp and keeps it Failed otherwise (in particular a
tick at exactly failureCooldownMs does not transition); link events, time
ticks and render frames never leave Failed, so the cooldown tick is the sole
exit. -/
theorem C6_amended_thm (s : SysState) (now now2 now3 : Nat)
    (ip ip2 : String) (e : WiFiEvent_t) (sync : Option Nat) (inp : RenderIn)
    (hFailed : s.wifiState = .failed)
    (hGate : WIFI_CHECK_INTERVAL ≤ now - s.lastWifiCheck) :
    (updateWiFiStatus now ip s).wifiState =
      (if failureCooldownMs < now - s.wifiFailedTime then .disconnected else .failed)
    ∧ (WiFiEvent now2 ip2 e s).wifiState = .failed
    ∧ (secondsTick now3 sync s).wifiState = .failed
    ∧ ((renderFrame inp s).1).wifiState = .failed := by
  refine ⟨?_, ?_, ?_, ?_⟩
  · simp only [updateWiFiStatus]
    rw [if_neg (by omega)]
    rw [wifiIndicator_wifiState]
    simp only [hFailed, WiFiRecovery]
    split_ifs <;> simp [hFailed]
  · cases e <;> simp [WiFiEvent, hFailed]
  · simp [hFailed]
  · simp [hFailed]

/-- A Failed state used to instantiate the C6 amended theorem. -/
def c6w : SysState :=
  { initialState with wifiState := .failed, wifiFailedTime := 1000, lastWifiCheck := 2000 }

/-- Claim C6, witness: the amended statement evaluated at a Failed state
whose failure was stamped at 1000 ms, ticked at 130001 ms. -/
theorem C6_amended_witness :
    (updateWiFiStatus 130001 "" c6w).wifiState =
      (if failureCooldownMs < 130001 - c6w.wifiFailedTime then .disconnected else .failed)
    ∧ (WiFiEvent 0 "" .staGotIP c6w).wifiState = .failed
    ∧ (secondsTick 0 none c6w).wifiState = .failed
    ∧ ((renderFrame c4inp c6w).1).wifiState = .failed :=
  C6_amended_thm c6w 130001 0 0 "" "" .staGotIP none c4inp rfl (by decide)

/-- The inductive invariant of the attempt counter: it never exceeds the
bound, and in the states that can still time out or drop (Connecting,
Reconnecting, Connected) it is at most 2, so one more increment cannot pass
the bound. -/
def WifiInv (s : SysState) : Prop :=
  s.reconnectAttempts ≤ MAX_RECONNECT_ATTEMPTS ∧
  ((s.wifiState = .connecting ∨ s.wifiState = .reconnecting ∨
      s.wifiState = .connected) → s.reconnectAttempts ≤ 2)

theorem WifiInv_initial : WifiInv initialState := by
  unfold WifiInv
  decide

theorem WifiInv_wifiIndicator {s : SysState} (h : WifiInv s) :
    WifiInv (wifiIndicator s) := by
  unfold WifiInv
  simp only [wifiIndicator_reconnectAttempts, wifiIndicator_wifiState]
  exact h

theorem WifiInv_WiFiTimeout (now : Nat) {s : SysState}
    (h2 : s.reconnectAttempts ≤ 2) : WifiInv (WiFiTimeout now s) := by
  have hm : (s.reconnectAttempts + 1) % 256 = s.reconnectAttempts + 1 :=
    Nat.mod_eq_of_lt (by omega)
  unfold WifiInv
  simp only [WiFiTimeout, MAX_RECONNECT_ATTEMPTS]
  split
  · split
    · refine ⟨?_, ?_⟩ <;> simp_all <;> omega
    · refine ⟨?_, ?_⟩ <;> simp_all <;> omega
  · refine ⟨?_, ?_⟩ <;> simp_all <;> omega

theorem WifiInv_updateWiFiStatus (now : Nat) (ip : String) {s : SysState}
    (h : WifiInv s) : WifiInv (updateWiFiStatus now ip s) := by
  obtain ⟨hA, hB⟩ := h
  unfold updateWiFiStatus
  split
  · exact ⟨hA, hB⟩
  · apply WifiInv_wifiIndicator
    split
    case h_1 heq =>
      exact ⟨by simp [startWiFi, MAX_RECONNECT_ATTEMPTS], by simp [startWiFi]⟩
    case h_2 heq =>
      split
      · exact WifiInv_WiFiTimeout now (hB (Or.inl heq))
      · exact ⟨hA, fun _ => hB (Or.inl heq)⟩
    case h_3 heq =>
      split
      · exact WifiInv_WiFiTimeout now (hB (Or.inr (Or.inl heq)))
      · exact ⟨hA, fun _ => hB (Or.inr (Or.inl heq))⟩
    case h_4 heq =>
      unfold WifiInv WiFiRecovery
      split
      · exact ⟨hA, by simp⟩
      · exact ⟨hA, by simp_all⟩
    case h_5 heq =>
      split
      · exact ⟨hA, fun _ => hB (Or.inr (Or.inr heq))⟩
      · exact ⟨hA, fun _ => hB (Or.inr (Or.inr heq))⟩

theorem WifiInv_WiFiEvent (now : Nat) (ip : String) (e : WiFiEvent_t)
    {s : SysState} (h : WifiInv s) : WifiInv (WiFiEvent now ip e s) := by
  obtain ⟨hA, hB⟩ := h
  unfold WifiInv WiFiEvent
  split
  · exact ⟨hA, hB⟩
  · split
    · simp
    · exact ⟨hA, hB⟩
  · split
    case isTrue heq =>
      have h2 : s.reconnectAttempts ≤ 2 := hB (Or.inr (Or.inr heq))
      simp_all
    · exact ⟨hA, hB⟩
  · exact ⟨hA, hB⟩

theorem WifiInv_secondsTick (now : Nat) (sync : Option Nat) {s : SysState}
    (h : WifiInv s) : WifiInv (secondsTick now sync s) := by
  obtain ⟨hA, hB⟩ := h
  exact ⟨by simp [hA], by simp_all⟩

theorem WifiInv_renderFrame (inp : RenderIn) {s : SysState}
    (h : WifiInv s) : WifiInv (renderFrame inp s).1 := by
  obtain ⟨hA, hB⟩ := h
  exact ⟨by simp [hA], by simp_all⟩

/-- Every reachable state satisfies the attempt-counter invariant. -/
theorem reachable_WifiInv {s : SysState} (h : Reachable s) : WifiInv s := by
  induction h with
  | init => exact WifiInv_initial
  | step hr hstep ih =>
      cases hstep with
      | wifiTick now ip s => exact WifiInv_updateWiFiStatus now ip ih
      | linkEvent now ip e s => exact WifiInv_WiFiEvent now ip e ih
      | timeTick now sync s => exact WifiInv_secondsTick now sync ih
      | render inp s => exact WifiInv_renderFrame inp ih

/-- The conjunction the amended claim C2 asserts of one step from s to t:
the counter stays bounded, Failed is entered only from Reconnecting with the
counter at the bound, entering Connected resets the counter, and the fresh
Connecting attempt out of Disconnected starts with a zero counter. -/
def C2Shape (s t : SysState) : Prop :=
  t.reconnectAttempts ≤ MAX_RECONNECT_ATTEMPTS
  ∧ (t.wifiState = .failed → s.wifiState = .failed ∨
      (s.wifiState = .reconnecting ∧ t.reconnectAttempts = MAX_RECONNECT_ATTEMPTS))
  ∧ (t.wifiState = .connected → s.wifiState ≠ .connected → t.reconnectAttempts = 0)
  ∧ (s.wifiState = .disconnected → t.wifiState = .connecting → t.reconnectAttempts = 0)

theorem C2Shape_of_preserved {s t : SysState} (hInv : WifiInv s)
    (h1 : t.wifiState = s.wifiState) (h2 : t.reconnectAttempts = s.reconnectAttempts) :
    C2Shape s t := by
  refine ⟨h2 ▸ hInv.1, ?_, ?_, ?_⟩
  · intro hf
    exact Or.inl (h1 ▸ hf)
  · intro hc hnc
    exact absurd (h1 ▸ hc) hnc
  · intro hd hc
    rw [h1, hd] at hc
    cases hc

theorem C2Shape_updateWiFiStatus (now : Nat) (ip : String) {s : SysState}
    (hInv : WifiInv s) : C2Shape s (updateWiFiStatus now ip s) := by
  obtain ⟨hA, hB⟩ := hInv
  refine ⟨(WifiInv_updateWiFiStatus now ip ⟨hA, hB⟩).1, ?_⟩
  unfold updateWiFiStatus
  split
  · exact ⟨fun hf => Or.inl hf, fun hc hnc => absurd hc hnc, fun hd hc => by simp_all⟩
  · simp only [wifiIndicator_wifiState, wifiIndicator_reconnectAttempts]
    split
    case h_1 heq =>
      refine ⟨?_, ?_, ?_⟩ <;> simp_all [startWiFi]
    case h_2 heq =>
      split
      · refine ⟨?_, ?_, ?_⟩ <;> simp_all [WiFiTimeout]
      · refine ⟨?_, ?_, ?_⟩ <;> simp_all
    case h_3 heq =>
      have h2 : s.reconnectAttempts ≤ 2 := hB (Or.inr (Or.inl heq))
      have hm : (s.reconnectAttempts + 1) % 256 = s.reconnectAttempts + 1 :=
        Nat.mod_eq_of_lt (by omega)
      split
      · simp only [WiFiTimeout, MAX_RECONNECT_ATTEMPTS]
        split
        · split
          · refine ⟨?_, ?_, ?_⟩ <;> simp_all <;> omega
          · refine ⟨?_, ?_, ?_⟩ <;> simp_all
        · refine ⟨?_, ?_, ?_⟩ <;> simp_all
      · refine ⟨?_, ?_, ?_⟩ <;> simp_all
    case h_4 heq =>
      simp only [WiFiRecovery]
      split
      · refine ⟨?_, ?_, ?_⟩ <;> simp_all
      · refine ⟨?_, ?_, ?_⟩ <;> simp_all
    case h_5 heq =>
      split
      · refine ⟨?_, ?_, ?_⟩ <;> simp_all
      · refine ⟨?_, ?_, ?_⟩ <;> simp_all

theorem C2Shape_WiFiEvent (now : Nat) (ip : String) (e : WiFiEvent_t)
    {s : SysState} (hInv : WifiInv s) : C2Shape s (WiFiEvent now ip e s) := by
  obtain ⟨hA, hB⟩ := hInv
  refine ⟨(WifiInv_WiFiEvent now ip e ⟨hA, hB⟩).1, ?_⟩
  unfold WiFiEvent
  split
  · exact ⟨fun hf => Or.inl hf, fun hc hnc => absurd hc hnc, fun hd hc => by simp_all⟩
  · split
    case isTrue heq =>
      refine ⟨?_, ?_, ?_⟩ <;> simp_all
    · exact ⟨fun hf => Or.inl hf, fun hc hnc => absurd hc hnc, fun hd hc => by simp_all⟩
  · split
    case isTrue heq =>
      refine ⟨?_, ?_, ?_⟩ <;> simp_all
    · exact ⟨fun hf => Or.inl hf, fun hc hnc => absurd hc hnc, fun hd hc => by simp_all⟩
  · exact ⟨fun hf => Or.inl hf, fun hc hnc => absurd hc hnc, fun hd hc => by simp_all⟩

/-- Claim C2, amended: over every reachable step, reconnectAttemptCount
never exceeds maxReconnectAttempts; Failed is entered only from Reconnecting
with the counter having just reached the bound; entering Connected resets
the counter to 0; and the Connecting attempt issued out of Disconnected
starts with counter 0. Entering Disconnected itself does not reset the
counter (see the counterexample): the reset happens on the next connect
cycle. -/
theorem C2_amended_thm {s t : SysState} (hr : Reachable s) (hstep : Step s t) :
    t.reconnectAttempts ≤ MAX_RECONNECT_ATTEMPTS
    ∧ (t.wifiState = .failed → s.wifiState = .failed ∨
        (s.wifiState = .reconnecting ∧ t.reconnectAttempts = MAX_RECONNECT_ATTEMPTS))
    ∧ (t.wifiState = .connected → s.wifiState ≠ .connected → t.reconnectAttempts = 0)
    ∧ (s.wifiState = .disconnected → t.wifiState = .connecting →
        t.reconnectAttempts = 0) := by
  have hInv := reachable_WifiInv hr
  have hshape : C2Shape s t := by
    cases hstep with
    | wifiTick now ip s => exact C2Shape_updateWiFiStatus now ip hInv
    | linkEvent now ip e s => exact C2Shape_WiFiEvent now ip e hInv
    | timeTick now sync s => exact C2Shape_of_preserved hInv (by simp) (by simp)
    | render inp s => exact C2Shape_of_preserved hInv (by simp) (by simp)
  exact hshape

/-- Claim C2, witness: the amended statement evaluated on the first gated
tick out of the initial state, which issues the first Connecting attempt. -/
theorem C2_amended_witness :
    (updateWiFiStatus 5000 "" initialState).reconnectAttempts ≤ MAX_RECONNECT_ATTEMPTS
    ∧ ((updateWiFiStatus 5000 "" initialState).wifiState = .failed →
        initialState.wifiState = .failed ∨
        (initialState.wifiState = .reconnecting ∧
          (updateWiFiStatus 5000 "" initialState).reconnectAttempts =
            MAX_RECONNECT_ATTEMPTS))
    ∧ ((updateWiFiStatus 5000 "" initialState).wifiState = .connected →
        initialState.wifiState ≠ .connected →
        (updateWiFiStatus 5000 "" initialState).reconnectAttempts = 0)
    ∧ (initialState.wifiState = .disconnected →
        (updateWiFiStatus 5000 "" initialState).wifiState = .connecting →
        (updateWiFiStatus 5000 "" initialState).reconnectAttempts = 0) :=
  C2_amended_thm Reachable.init (Step.wifiTick 5000 "" initialState)

end NyanClock
